import Mathlib

/-!
Verification of the infinos-backend device simulation engine and its
HTTP-facing handlers (`server.js`).

The repository ships `server.js`; the simulation engine it requires
(`./services/deviceSimulator`) is referenced but its file is not part of the
source tree, so the engine (state machine, registry, orchestration) is
modelled from the specification's words, while the handlers present in
`server.js` (health check, admin add-device, shutdown hooks) are embedded
from the source.
-/

namespace Infinos

/-- Modelled from the spec: the engine's view of a device record
(`services/deviceSimulator` is not in the source tree). Fields per spec §3:
`code` unique identifier, `isClaimed`, `status` on/off, `batteryLevel`
integer percentage. -/
structure Device where
  code : String
  isClaimed : Bool
  status : Bool
  batteryLevel : Int
deriving Repr, DecidableEq

/-- Modelled from the spec: one tick of the Simulation State Machine
(spec §4.1, `services/deviceSimulator` is not in the source tree).
Rules in order: (1) not claimed → no-op; (2) `status = false` → no-op;
(3) `status = true` and `batteryLevel > 0` → decrement by the configured
step, clamped at 0; (4) when `batteryLevel` reaches 0 → force
`status = false` (Depleted). The step is the configurable drain amount
(range 1–3 per spec). -/
def tick (step : Nat) (d : Device) : Device :=
  if d.isClaimed = false then d
  else if d.status = false then d
  else if d.batteryLevel > 0 then
    let b := max 0 (d.batteryLevel - (step : Int))
    if b = 0 then { d with batteryLevel := b, status := false }
    else { d with batteryLevel := b }
  else { d with status := false }

/-- Iterated ticks, one configured step per tick. -/
def tickSeq (steps : List Nat) (d : Device) : Device :=
  steps.foldl (fun d s => tick s d) d

/-- Modelled from the spec: a Simulation Handle record (spec §3);
`services/deviceSimulator` is not in the source tree. -/
structure SimulationHandle where
  deviceCode : String
  tickIntervalMs : Nat
deriving Repr, DecidableEq

/-- Handle construction with the default tick cadence (spec §3: e.g. 5000ms). -/
def mkHandle (code : String) : SimulationHandle :=
  { deviceCode := code, tickIntervalMs := 5000 }

/-- Modelled from the spec: the Simulation Registry, a mapping from device
code to handle (spec §3, §4.3). -/
abbrev Registry := List (String × SimulationHandle)

/-- Control-path error taxonomy (spec §7). -/
inductive SimError where
  | AlreadyRunning
  | NotRunning
  | DeviceNotFound
  | StoreUnavailable
deriving Repr, DecidableEq

/-- Modelled from the spec: `listRunning()` returns the ordered set of
registered device codes (spec §4.3). -/
def listRunning (reg : Registry) : List String :=
  reg.map Prod.fst

/-- Modelled from the spec: `register(code, handle)` fails with
`AlreadyRunning` if `code` is already present, otherwise inserts
(spec §4.3). Returned pair: the call's result and the registry afterwards. -/
def register (code : String) (h : SimulationHandle) (reg : Registry) :
    Except SimError Unit × Registry :=
  if code ∈ listRunning reg then (Except.error SimError.AlreadyRunning, reg)
  else (Except.ok (), reg ++ [(code, h)])

/-- Modelled from the spec: `stopAll()` stops every registered handle and
clears the registry (spec §4.3); cancellation is acknowledged synchronously
(spec §5). -/
def stopAll (_reg : Registry) : Registry := []

/-- Modelled from the spec: `getRunningSimulations()` delegates to the
Registry's `listRunning()` (spec §4.4). -/
def getRunningSimulations (reg : Registry) : List String :=
  listRunning reg

/-- Modelled from the spec: `stopAllSimulations()` delegates to Registry
`stopAll` (spec §4.4). -/
def stopAllSimulations (reg : Registry) : Registry :=
  stopAll reg

/-- Modelled from the spec: `initializeAllSimulations()` queries the store
for all devices and, for each device with `isClaimed = true`, starts a handle
via the Registry; a device already registered is skipped (the `register`
call fails and leaves the registry unchanged), and unclaimed devices are
skipped (spec §4.4). -/
def initializeAllSimulations (devs : List Device) (reg : Registry) : Registry :=
  devs.foldl
    (fun r d =>
      if d.isClaimed then (register d.code (mkHandle d.code) r).2 else r)
    reg

/-- Modelled from the spec: one scheduler round — every device whose code is
registered receives a tick; unregistered devices are untouched (spec §2:
handles drive ticks only for registered devices). -/
def tickRegistered (reg : Registry) (step : Nat) (store : List Device) :
    List Device :=
  store.map (fun d => if d.code ∈ listRunning reg then tick step d else d)

end Infinos

namespace Infinos

/- ### Theorems for the state machine claims -/

lemma tick_batteryLevel_of_running (step : Nat) (d : Device)
    (hc : d.isClaimed = true) (hs : d.status = true)
    (hb : 0 < d.batteryLevel) :
    (tick step d).batteryLevel = max 0 (d.batteryLevel - (step : Int)) := by
  have hc' : ¬ d.isClaimed = false := by simp [hc]
  have hs' : ¬ d.status = false := by simp [hs]
  unfold tick
  rw [if_neg hc', if_neg hs', if_pos hb]
  dsimp only
  split <;> rfl

/-- C1: for a claimed, powered-on device with battery `b > 0`, one tick with
a configured step in the range 1–3 moves the battery into
`[max(0, b-3), b-1]` inclusive, and in particular never increases it. -/
theorem tick_battery_bounds (step : Nat) (d : Device)
    (hc : d.isClaimed = true) (hs : d.status = true)
    (hb : 0 < d.batteryLevel) (h1 : 1 ≤ step) (h3 : step ≤ 3) :
    max 0 (d.batteryLevel - 3) ≤ (tick step d).batteryLevel ∧
      (tick step d).batteryLevel ≤ d.batteryLevel - 1 ∧
      (tick step d).batteryLevel ≤ d.batteryLevel := by
  rw [tick_batteryLevel_of_running step d hc hs hb]
  have hs3 : (step : Int) ≤ 3 := by exact_mod_cast h3
  have hs1 : (1 : Int) ≤ (step : Int) := by exact_mod_cast h1
  refine ⟨?_, ?_, ?_⟩ <;> omega

/-- Witness for C1 at a concrete input: device at battery 10, step 3. -/
theorem tick_battery_bounds_witness :
    let d : Device := ⟨"A", true, true, 10⟩
    max 0 (d.batteryLevel - 3) ≤ (tick 3 d).batteryLevel ∧
      (tick 3 d).batteryLevel ≤ d.batteryLevel - 1 ∧
      (tick 3 d).batteryLevel ≤ d.batteryLevel :=
  tick_battery_bounds 3 ⟨"A", true, true, 10⟩ rfl rfl (by decide)
    (by decide) (by decide)

lemma tick_of_status_false (step : Nat) (d : Device)
    (hs : d.status = false) : tick step d = d := by
  unfold tick
  by_cases hc : d.isClaimed = false
  · simp [hc]
  · simp [hc, hs]

lemma tickSeq_of_status_false (steps : List Nat) (d : Device)
    (hs : d.status = false) : tickSeq steps d = d := by
  induction steps with
  | nil => rfl
  | cons s rest ih =>
      unfold tickSeq
      simp only [List.foldl_cons]
      rw [tick_of_status_false s d hs]
      exact ih

/-- C2: once a claimed device's battery has reached 0, the next tick forces
`status = false` and leaves the battery at 0, and every subsequent tick
(absent an external toggle) leaves `status = false` and `batteryLevel = 0`
unchanged. -/
theorem depleted_forces_off (step : Nat) (d : Device)
    (hc : d.isClaimed = true) (hb : d.batteryLevel = 0) :
    (tick step d).status = false ∧ (tick step d).batteryLevel = 0 ∧
      ∀ steps : List Nat, tickSeq steps (tick step d) = tick step d := by
  have hd : (tick step d).status = false ∧ (tick step d).batteryLevel = 0 := by
    unfold tick
    by_cases hs : d.status = false
    · simp [hc, hs, hb]
    · simp only [Bool.not_eq_false] at hs
      simp [hc, hs, hb]
  exact ⟨hd.1, hd.2, fun steps => tickSeq_of_status_false steps _ hd.1⟩

/-- Witness for C2 at a concrete input: claimed device at battery 0. -/
theorem depleted_forces_off_witness :
    let d : Device := ⟨"A", true, true, 0⟩
    (tick 2 d).status = false ∧ (tick 2 d).batteryLevel = 0 ∧
      ∀ steps : List Nat, tickSeq steps (tick 2 d) = tick 2 d :=
  depleted_forces_off 2 ⟨"A", true, true, 0⟩ rfl rfl

/-- C3: a tick is the identity on every unclaimed device — neither
`batteryLevel` nor `status` (nor anything else) changes. -/
theorem tick_unclaimed_identity (step : Nat) (d : Device)
    (hc : d.isClaimed = false) : tick step d = d := by
  unfold tick
  simp [hc]

/-- Witness for C3 at a concrete input: unclaimed device B. -/
theorem tick_unclaimed_identity_witness :
    tick 3 ⟨"B", false, true, 50⟩ = ⟨"B", false, true, 50⟩ :=
  tick_unclaimed_identity 3 ⟨"B", false, true, 50⟩ rfl

/- ### Theorems for the Registry and orchestration claims -/

lemma listRunning_register (code : String) (h : SimulationHandle)
    (reg : Registry) :
    listRunning (register code h reg).2 =
      if code ∈ listRunning reg then listRunning reg
      else listRunning reg ++ [code] := by
  unfold register
  by_cases hm : code ∈ listRunning reg
  · simp only [if_pos hm]
  · simp only [if_neg hm]
    simp [listRunning]

/-- C7: when `code` is already present in the Registry, `register(code, _)`
fails with `AlreadyRunning` and the mapping — in particular its size — is
unchanged by the failing call. -/
theorem register_already_running (code : String) (h : SimulationHandle)
    (reg : Registry) (hm : code ∈ listRunning reg) :
    (register code h reg).1 = Except.error SimError.AlreadyRunning ∧
      (register code h reg).2 = reg ∧
      (register code h reg).2.length = reg.length := by
  simp [register, hm]

/-- Witness for C7 at a concrete input: registry already holding "A". -/
theorem register_already_running_witness :
    (register "A" (mkHandle "A") [("A", mkHandle "A")]).1 =
        Except.error SimError.AlreadyRunning ∧
      (register "A" (mkHandle "A") [("A", mkHandle "A")]).2 =
        [("A", mkHandle "A")] ∧
      (register "A" (mkHandle "A") [("A", mkHandle "A")]).2.length =
        [("A", mkHandle "A")].length :=
  register_already_running "A" (mkHandle "A") [("A", mkHandle "A")]
    (by simp [listRunning])

/-- C6: a code is running after `initializeAllSimulations` exactly when it
was already registered or belongs to a claimed device returned by the store
(so unclaimed devices are never started); in particular booting with claimed
device A and unclaimed device B yields `getRunningSimulations() = ["A"]`. -/
theorem initializeAllSimulations_spec :
    (∀ (devs : List Device) (reg : Registry) (c : String),
        c ∈ listRunning (initializeAllSimulations devs reg) ↔
          c ∈ listRunning reg ∨ ∃ d ∈ devs, d.isClaimed = true ∧ d.code = c) ∧
      getRunningSimulations
          (initializeAllSimulations
            [⟨"A", true, true, 10⟩, ⟨"B", false, false, 100⟩] []) = ["A"] := by
  constructor
  · intro devs
    induction devs with
    | nil => intro reg c; simp [initializeAllSimulations]
    | cons d rest ih =>
        intro reg c
        have hstep : initializeAllSimulations (d :: rest) reg =
            initializeAllSimulations rest
              (if d.isClaimed then (register d.code (mkHandle d.code) reg).2
               else reg) := by
          simp [initializeAllSimulations]
        rw [hstep, ih]
        simp only [List.exists_mem_cons_iff]
        by_cases hcl : d.isClaimed = true
        · rw [if_pos hcl, listRunning_register]
          by_cases hm : d.code ∈ listRunning reg
          · rw [if_pos hm]
            constructor
            · tauto
            · rintro (h1 | ⟨⟨-, rfl⟩ | h2⟩)
              · exact Or.inl h1
              · exact Or.inl hm
              · exact Or.inr h2
          · rw [if_neg hm]
            simp only [List.mem_append, List.mem_singleton, hcl, true_and]
            constructor
            · rintro ((h1 | rfl) | h2)
              · exact Or.inl h1
              · exact Or.inr (Or.inl rfl)
              · exact Or.inr (Or.inr h2)
            · rintro (h1 | rfl | h2)
              · exact Or.inl (Or.inl h1)
              · exact Or.inl (Or.inr rfl)
              · exact Or.inr h2
        · rw [if_neg hcl]
          simp only [hcl, false_and]
          tauto
  · rfl

/-- C8: after `stopAll()` the registry lists no running simulation, and a
subsequent scheduler round produces no tick side effect on any device. -/
theorem stopAll_clears_and_quiesces :
    ∀ (reg : Registry) (step : Nat) (store : List Device),
      listRunning (stopAll reg) = [] ∧
        tickRegistered (stopAll reg) step store = store := by
  intro reg step store
  refine ⟨rfl, ?_⟩
  simp [tickRegistered, stopAll, listRunning]

/-- Process state for the shutdown hooks of server.js. -/
structure ProcState where
  registry : Registry
  exited : Bool

/-- From the source (server.js lines 264–274, SIGINT/SIGTERM handlers): on a
shutdown signal the process runs `deviceSimulator.stopAllSimulations()` and
then `process.exit(0)`, in that order. Completion of `stopAll` is
synchronous per spec §5 (`services/deviceSimulator` is not in the source
tree), so the registry observed at exit is the post-`stopAll` one. -/
def shutdownHandler (s : ProcState) : ProcState :=
  let reg := stopAllSimulations s.registry
  { registry := reg, exited := true }

/-- C4: the shutdown handler invokes `stopAllSimulations()` to completion
before the process exits: at exit the registry is the result of
`stopAllSimulations`, it is empty, and no handle can produce a further tick
side effect (none is abandoned mid-tick). -/
theorem shutdown_stops_all_before_exit (s : ProcState) :
    (shutdownHandler s).registry = stopAllSimulations s.registry ∧
      (shutdownHandler s).exited = true ∧
      listRunning (shutdownHandler s).registry = [] ∧
      ∀ (step : Nat) (store : List Device),
        tickRegistered (shutdownHandler s).registry step store = store := by
  refine ⟨rfl, rfl, rfl, ?_⟩
  intro step store
  simp [shutdownHandler, stopAllSimulations, stopAll, tickRegistered,
    listRunning]

/- ### Embedding of the server.js HTTP handlers -/

/-- Shape of the JSON body returned by GET /health (server.js lines
115–127); the timestamp is outside the model. -/
structure HealthResponse where
  status : String
  message : String
  environment : String
  port : Nat
  activeSimulations : Nat
  simulatingDevices : List String
  supabaseConnected : Bool
deriving Repr, DecidableEq

/-- From the source (server.js lines 115–127, GET /health handler): it calls
`deviceSimulator.getRunningSimulations()` once and reports the list's length
as `activeSimulations` and the list itself as `simulatingDevices`. The
registry and device store are passed and returned explicitly to expose that
the handler mutates neither. -/
def healthHandler (environment : String) (port : Nat) (supabaseUrlSet : Bool)
    (reg : Registry) (store : List Device) :
    HealthResponse × Registry × List Device :=
  let runningSimulations := getRunningSimulations reg
  ({ status := "OK", message := "Server is running",
     environment := environment, port := port,
     activeSimulations := runningSimulations.length,
     simulatingDevices := runningSimulations,
     supabaseConnected := supabaseUrlSet }, reg, store)

/-- A row of the `devices` table as inserted by POST /admin/add-device
(server.js lines 175–187). -/
structure DbDevice where
  name : String
  device_code : String
  device_secret : String
  bag_type : String
  status : Bool
  is_claimed : Bool
  battery_charge_level : Int
deriving Repr, DecidableEq

/-- An access the handler performs against the device store (Supabase):
the `select … eq(device_code)` read and the `insert` write. -/
inductive StoreEffect where
  | selectDevice (device_code : String)
  | insertDevice (row : DbDevice)
deriving Repr, DecidableEq

/-- HTTP status code and message of a handler response. -/
structure ApiResponse where
  statusCode : Nat
  message : String
deriving Repr, DecidableEq

/-- Body of a POST /admin/add-device request (server.js line 144); absent
JSON fields are `none`. -/
structure AddDeviceRequest where
  name : Option String
  device_code : Option String
  bag_type : Option String
  admin_key : Option String
deriving Repr, DecidableEq

/-- JavaScript falsiness of an optional string body field (`!name`): absent
(`undefined`) or the empty string. -/
def jsFalsy : Option String → Bool
  | none => true
  | some s => s.isEmpty

/-- From the source (server.js lines 140–207, POST /admin/add-device):
check `admin_key` against `process.env.ADMIN_PASSKEY` defaulting to
"INFINOS2025ADMIN" (403 on mismatch, before touching the store); then
require `name`, `device_code`, `bag_type` (400); then read the store for an
existing `device_code` (400 if found); otherwise insert the new row with
`status = false`, `is_claimed = false`, `battery_charge_level = 100` (201).
`freshSecret` stands for the random `device_secret`. The result carries the
response, the list of store accesses performed, and the store afterwards. -/
def addDeviceHandler (adminPasskeyEnv : Option String) (freshSecret : String)
    (req : AddDeviceRequest) (store : List DbDevice) :
    ApiResponse × List StoreEffect × List DbDevice :=
  let expectedKey := adminPasskeyEnv.getD "INFINOS2025ADMIN"
  if req.admin_key ≠ some expectedKey then
    ({ statusCode := 403, message := "Invalid admin key" }, [], store)
  else if jsFalsy req.name || jsFalsy req.device_code || jsFalsy req.bag_type then
    ({ statusCode := 400, message := "Missing required fields" }, [], store)
  else
    let device_code := req.device_code.getD ""
    if store.any (fun d => d.device_code == device_code) then
      ({ statusCode := 400, message := "Device code already exists" },
        [StoreEffect.selectDevice device_code], store)
    else
      let row : DbDevice :=
        { name := req.name.getD "", device_code := device_code,
          device_secret := freshSecret, bag_type := req.bag_type.getD "",
          status := false, is_claimed := false, battery_charge_level := 100 }
      ({ statusCode := 201, message := "Device created successfully" },
        [StoreEffect.selectDevice device_code, StoreEffect.insertDevice row],
        store ++ [row])

/-- C9: the health response derives `activeSimulations` and
`simulatingDevices` from one `getRunningSimulations()` snapshot — the count
equals the list's length — and the handler leaves the registry and the
device store unchanged. -/
theorem healthHandler_consistent_and_pure (environment : String) (port : Nat)
    (supabaseUrlSet : Bool) (reg : Registry) (store : List Device) :
    (healthHandler environment port supabaseUrlSet reg store).1.activeSimulations =
        (healthHandler environment port supabaseUrlSet reg store).1.simulatingDevices.length ∧
      (healthHandler environment port supabaseUrlSet reg store).1.simulatingDevices =
        getRunningSimulations reg ∧
      (healthHandler environment port supabaseUrlSet reg store).2.1 = reg ∧
      (healthHandler environment port supabaseUrlSet reg store).2.2 = store :=
  ⟨rfl, rfl, rfl, rfl⟩

/-- C10: a POST /admin/add-device request whose `admin_key` differs from the
configured passkey (env `ADMIN_PASSKEY`, default "INFINOS2025ADMIN") gets a
403 response with message "Invalid admin key", and the handler performs no
store access and creates no device. -/
theorem addDevice_invalid_key (adminPasskeyEnv : Option String)
    (freshSecret : String) (req : AddDeviceRequest) (store : List DbDevice)
    (hk : req.admin_key ≠ some (adminPasskeyEnv.getD "INFINOS2025ADMIN")) :
    (addDeviceHandler adminPasskeyEnv freshSecret req store).1 =
        { statusCode := 403, message := "Invalid admin key" } ∧
      (addDeviceHandler adminPasskeyEnv freshSecret req store).2.1 = [] ∧
      (addDeviceHandler adminPasskeyEnv freshSecret req store).2.2 = store := by
  unfold addDeviceHandler
  simp [if_pos hk]

/-- Witness for C10 at a concrete input: wrong key against the default
passkey. -/
theorem addDevice_invalid_key_witness :
    (addDeviceHandler none "s3cret" ⟨some "Bag", some "C1", some "tote", some "WRONG"⟩ []).1 =
        { statusCode := 403, message := "Invalid admin key" } ∧
      (addDeviceHandler none "s3cret" ⟨some "Bag", some "C1", some "tote", some "WRONG"⟩ []).2.1 = [] ∧
      (addDeviceHandler none "s3cret" ⟨some "Bag", some "C1", some "tote", some "WRONG"⟩ []).2.2 = [] :=
  addDevice_invalid_key none "s3cret" ⟨some "Bag", some "C1", some "tote", some "WRONG"⟩ []
    (by decide)

lemma tick_batteryLevel_eq_or (step : Nat) (d : Device) :
    (tick step d).batteryLevel = d.batteryLevel ∨
      (tick step d).batteryLevel = max 0 (d.batteryLevel - (step : Int)) := by
  unfold tick
  split
  · exact Or.inl rfl
  · split
    · exact Or.inl rfl
    · split
      · dsimp only
        split
        · exact Or.inr rfl
        · exact Or.inr rfl
      · exact Or.inl rfl

/-- C5: `batteryLevel` stays an integer in [0, 100] through every engine
operation — a tick preserves the range, and the only device-creating
operation (the admin add-device insert) writes `battery_charge_level = 100`,
inside the range. -/
theorem batteryLevel_in_range :
    (∀ (d : Device) (step : Nat), 0 ≤ d.batteryLevel → d.batteryLevel ≤ 100 →
        0 ≤ (tick step d).batteryLevel ∧ (tick step d).batteryLevel ≤ 100) ∧
      ∀ (adminPasskeyEnv : Option String) (freshSecret : String)
          (req : AddDeviceRequest) (store : List DbDevice) (row : DbDevice),
        StoreEffect.insertDevice row ∈
            (addDeviceHandler adminPasskeyEnv freshSecret req store).2.1 →
          row.battery_charge_level = 100 ∧ 0 ≤ row.battery_charge_level ∧
            row.battery_charge_level ≤ 100 := by
  constructor
  · intro d step h0 h100
    rcases tick_batteryLevel_eq_or step d with h | h <;> rw [h] <;> omega
  · intro env secret req store row hmem
    unfold addDeviceHandler at hmem
    dsimp only at hmem
    split at hmem
    · simp at hmem
    · split at hmem
      · simp at hmem
      · split at hmem
        · simp at hmem
        · simp only [List.mem_cons, List.not_mem_nil, or_false] at hmem
          rcases hmem with h | h
          · exact absurd h (by simp)
          · have hrow := (StoreEffect.insertDevice.injEq _ _).mp h
            rw [hrow]
            refine ⟨rfl, ?_, ?_⟩ <;> norm_num

/-- Witness for C5 at concrete inputs: a tick on a mid-range battery, and
the row inserted by a successful admin add-device request. -/
theorem batteryLevel_in_range_witness :
    (0 ≤ (tick 2 ⟨"A", true, true, 50⟩).batteryLevel ∧
        (tick 2 ⟨"A", true, true, 50⟩).batteryLevel ≤ 100) ∧
      ((⟨"Bag", "C1", "s3cret", "tote", false, false, 100⟩ : DbDevice).battery_charge_level = 100 ∧
        0 ≤ (⟨"Bag", "C1", "s3cret", "tote", false, false, 100⟩ : DbDevice).battery_charge_level ∧
        (⟨"Bag", "C1", "s3cret", "tote", false, false, 100⟩ : DbDevice).battery_charge_level ≤ 100) :=
  ⟨batteryLevel_in_range.1 ⟨"A", true, true, 50⟩ 2 (by decide) (by decide),
    batteryLevel_in_range.2 none "s3cret"
      ⟨some "Bag", some "C1", some "tote", some "INFINOS2025ADMIN"⟩ []
      ⟨"Bag", "C1", "s3cret", "tote", false, false, 100⟩ (by decide)⟩

end Infinos
